import Mathlib

/-!
Verification of the batch file-classification-and-extraction orchestrator of
`lambda-file-text-extract` (`src/index.mjs`, retained variant).

The JavaScript source is shallowly embedded: byte buffers become `List Nat`,
the external collaborators (sharp preprocessing, the Tesseract worker, the
pdf-parse library) become an explicit environment of functions returning
`Except`, rejected promises become `Except.error`, and the module-level
`TesseractWorkerSingleton` closure state becomes an explicit record with the
cooperative (single-threaded, run-to-completion between `await`s) semantics
of the JavaScript event loop made explicit.
-/

namespace LambdaOcr

/-- Byte buffers (`Buffer` in the source) as lists of byte values. -/
abbrev Bytes := List Nat

/-- `isPdf` from `src/index.mjs`:
`buffer.length > 4 && buffer.slice(0, 4).toString() === '%PDF'`.
`%PDF` in ASCII is `[0x25, 0x50, 0x44, 0x46]`; the length bound is the
source's strict `> 4`. -/
def isPdf (b : Bytes) : Bool :=
  decide (4 < b.length) && b.take 4 == [0x25, 0x50, 0x44, 0x46]

/-- `isJpeg` from `src/index.mjs`:
`buffer.length > 3 && buffer[0] === 0xff && buffer[1] === 0xd8 && buffer[2] === 0xff`. -/
def isJpeg (b : Bytes) : Bool :=
  decide (3 < b.length) && b.getD 0 0 == 0xff && b.getD 1 0 == 0xd8 && b.getD 2 0 == 0xff

/-- `isPng` from `src/index.mjs`: `buffer.length > 8` and the first eight
bytes equal the PNG signature `89 50 4E 47 0D 0A 1A 0A`. -/
def isPng (b : Bytes) : Bool :=
  decide (8 < b.length) && b.getD 0 0 == 0x89 && b.getD 1 0 == 0x50 && b.getD 2 0 == 0x4e
    && b.getD 3 0 == 0x47 && b.getD 4 0 == 0x0d && b.getD 5 0 == 0x0a && b.getD 6 0 == 0x1a
    && b.getD 7 0 == 0x0a

/-- `isImageFile` from `src/index.mjs`: `isJpeg(buffer) || isPng(buffer)`. -/
def isImageFile (b : Bytes) : Bool :=
  isJpeg b || isPng b

/-- `determineMimeType` from `src/index.mjs`: priority order PDF, JPEG, PNG,
otherwise `application/octet-stream`. -/
def determineMimeType (b : Bytes) : String :=
  if isPdf b then "application/pdf"
  else if isJpeg b then "image/jpeg"
  else if isPng b then "image/png"
  else "application/octet-stream"

/-- Substring occurrence on character lists, the semantics of JavaScript
`String.prototype.includes` (the empty needle occurs in every string). -/
def charsContain (hay needle : List Char) : Bool :=
  match hay with
  | [] => needle.isEmpty
  | _ :: t => needle.isPrefixOf hay || charsContain t needle

/-- JavaScript `s.includes(sub)` for the content-type checks in `processFile`. -/
def strIncludes (s sub : String) : Bool :=
  charsContain s.toList sub.toList

/-- JavaScript `x || d` on an optional string: both an absent value and the
empty string are falsy and give the default. Used for
`fileInput.filename || 'document'`, `fileInput.filename || 'unknown'` and
`fileInput.contentType || determineMimeType(fileBuffer)`. -/
def jsStrOr : Option String → String → String
  | none, d => d
  | some s, d => if s = "" then d else s

/-- One entry of `event.files`. `fileBuffer = none` models an absent
`fileBuffer` field (in the source, `Buffer.from(undefined, 'base64')` then
throws a `TypeError`); `some b` models a base64 payload that decodes to the
bytes `b`. `filename` and `contentType` are the optional string fields. -/
structure FileInput where
  fileBuffer : Option Bytes
  filename : Option String
  contentType : Option String
deriving DecidableEq, Repr

/-- The per-file result object built by `processFile`. An absent `error`
field (success path) and the explicit `extractedText: null` of the failure
path are both modelled by `none`. -/
structure FileResult where
  filename : String
  success : Bool
  extractedText : Option String
  error : Option String
deriving DecidableEq, Repr

/-- Observable interactions with the external collaborators and the engine,
recorded in program order. -/
inductive EngineEvent where
  | getWorkerCall
  | preprocessCall (b : Bytes)
  | recognizeCall (b : Bytes)
  | parsePdfCall (b : Bytes)
  | terminateCall
deriving DecidableEq, Repr

/-- The external collaborators, as deterministic functions.
`getWorker` is the outcome of `TesseractWorkerSingleton.getInstance()` for
this batch; `preprocess` is `sharp(b).greyscale().normalize().toBuffer()`;
`recognize b` is `worker.recognize(b)` projected to `data.text` (which
JavaScript allows to be `undefined`, hence `Option String`); `parsePdfText b`
is `parsePdf.default(b)` projected to `data?.text`. `Except.error e` models
a rejected promise carrying message `e`. -/
structure OcrEnv where
  getWorker : Except String Unit
  preprocess : Bytes → Except String Bytes
  recognize : Bytes → Except String (Option String)
  parsePdfText : Bytes → Except String (Option String)

/-- `performOcrOnImage` from the retained variant of `src/index.mjs`:
acquire the worker, preprocess with sharp, recognize; errors are rethrown
unchanged. Returns the result together with the collaborator-call trace. -/
def performOcrOnImage (env : OcrEnv) (b : Bytes) :
    Except String (Option String) × List EngineEvent :=
  match env.getWorker with
  | .error e => (.error e, [.getWorkerCall])
  | .ok () =>
    match env.preprocess b with
    | .error e => (.error e, [.getWorkerCall, .preprocessCall b])
    | .ok p =>
      match env.recognize p with
      | .error e => (.error e, [.getWorkerCall, .preprocessCall b, .recognizeCall p])
      | .ok t => (.ok t, [.getWorkerCall, .preprocessCall b, .recognizeCall p])

/-- `performOcrOnPdf` from the retained variant of `src/index.mjs`:
`const data = await parsePdf.default(pdfBuffer); return data?.text;`. -/
def performOcrOnPdf (env : OcrEnv) (b : Bytes) :
    Except String (Option String) × List EngineEvent :=
  (env.parsePdfText b, [.parsePdfCall b])

/-- Message of the `TypeError` JavaScript raises for
`Buffer.from(undefined, 'base64')` when `fileInput.fileBuffer` is absent. -/
def bufferTypeErrorMsg : String :=
  "The first argument must be of type string or an instance of Buffer, ArrayBuffer, or Array or an Array-like Object. Received undefined"

/-- The failure branch of `processFile`'s `catch`:
`{ filename: fileInput.filename || 'unknown', success: false, error: message, extractedText: null }`. -/
def failureResult (fi : FileInput) (msg : String) : FileResult :=
  { filename := jsStrOr fi.filename "unknown", success := false,
    extractedText := none, error := some msg }

/-- `processFile` from the retained variant of `src/index.mjs`, with the
collaborator-call trace. Decodes the buffer (an absent `fileBuffer` throws),
computes `filename` and `contentType` with JavaScript `||` defaulting,
dispatches on `contentType.includes('image') || isImageFile(fileBuffer)`,
then on `contentType.includes('pdf') || isPdf(fileBuffer)`, else throws
`Unsupported file type`; every failure is caught and rendered as a
`success: false` result, so the function is total. -/
def processFileTr (env : OcrEnv) (fi : FileInput) : FileResult × List EngineEvent :=
  match fi.fileBuffer with
  | none => (failureResult fi bufferTypeErrorMsg, [])
  | some b =>
    let filename := jsStrOr fi.filename "document"
    let contentType := jsStrOr fi.contentType (determineMimeType b)
    if strIncludes contentType "image" || isImageFile b then
      match performOcrOnImage env b with
      | (.ok t, tr) =>
        ({ filename := filename, success := true, extractedText := t, error := none }, tr)
      | (.error e, tr) => (failureResult fi e, tr)
    else if strIncludes contentType "pdf" || isPdf b then
      match performOcrOnPdf env b with
      | (.ok t, tr) =>
        ({ filename := filename, success := true, extractedText := t, error := none }, tr)
      | (.error e, tr) => (failureResult fi e, tr)
    else
      (failureResult fi ("Unsupported file type: " ++ contentType), [])

/-- `processFile` restricted to the `FileResult` it resolves with. -/
def processFile (env : OcrEnv) (fi : FileInput) : FileResult :=
  (processFileTr env fi).1

/-- The handler's `event` argument: `none` models a `null`/absent `files`
field, so `!files?.length` is taken. -/
structure HandlerEvent where
  files : Option (List FileInput)

/-- The Lambda response object of the retained handler: `statusCode`,
the fixed `Content-Type` header, a top-level `message`, and `body` holding
the per-file results array. -/
structure LambdaResponse where
  statusCode : Nat
  contentTypeHeader : String
  message : String
  body : List FileResult
deriving DecidableEq, Repr

/-- The early-return response for an empty or absent file list. -/
def noFilesResponse : LambdaResponse :=
  { statusCode := 200, contentTypeHeader := "application/json",
    message := "No files have been passed to processing.", body := [] }

/-- Message of the `TypeError` JavaScript raises for
`const { files } = event` when `event` is `null`: the one orchestrator-level
failure reachable in the embedding, caught by the handler's outer `catch`. -/
def destructureNullMsg : String :=
  "Cannot destructure property 'files' of 'event' as it is null."

/-- `handler` from the retained variant of `src/index.mjs`. `event = none`
models invoking the handler with a `null` event: destructuring throws, the
outer `catch` calls `terminateInstance` and returns a 500 with the error
message and empty body. Otherwise: empty/absent `files` short-circuits with
`noFilesResponse`; a non-empty list is mapped through `processFile`
(`Promise.all` keeps input order), `terminateInstance` runs after the join,
and a 200 response carries the results. The second component is the
engine/collaborator trace of the whole invocation. -/
def handler (env : OcrEnv) (event : Option HandlerEvent) :
    LambdaResponse × List EngineEvent :=
  match event with
  | none =>
    ({ statusCode := 500, contentTypeHeader := "application/json",
       message := destructureNullMsg, body := [] }, [EngineEvent.terminateCall])
  | some ev =>
    match ev.files with
    | none => (noFilesResponse, [])
    | some [] => (noFilesResponse, [])
    | some fs =>
      let rs := fs.map (processFileTr env)
      ({ statusCode := 200, contentTypeHeader := "application/json",
         message := "Text extraction completed", body := rs.map Prod.fst },
       (rs.map Prod.snd).flatten ++ [EngineEvent.terminateCall])

/-- The closure state of `TesseractWorkerSingleton` in `src/index.mjs`:
`instance` (a worker handle, abstracted to an identifier), the
`initializingPromise` reference (abstracted to a promise identifier), plus
an instrumentation counter of how many `createWorker` calls were started,
the observable the spec's call-count test double reads. -/
structure WorkerState where
  inst : Option Nat
  initializingPromise : Option Nat
  createWorkerCalls : Nat
deriving DecidableEq, Repr

/-- The module-load state: no instance, no initialization in flight. -/
def initialWorkerState : WorkerState :=
  { inst := none, initializingPromise := none, createWorkerCalls := 0 }

/-- What the synchronous prefix of one `getInstance()` call does before its
first `await`: return an existing instance, start a `createWorker` and await
it as its creator, or await an already in-flight `initializingPromise`. -/
inductive EntryAction where
  | ret (h : Nat)
  | awaitCreator (p : Nat)
  | awaitWaiter (p : Nat)
deriving DecidableEq, Repr

/-- The synchronous prefix of `getInstance()` (up to its first `await`),
run atomically under the JavaScript event loop: `if (instance) return
instance;` then `if (!initializingPromise) { initializingPromise =
createWorker(...); ... }` — recording the promise and bumping the
`createWorker` call count before any suspension — `else await
initializingPromise`. -/
def getInstanceEntry (s : WorkerState) : WorkerState × EntryAction :=
  match s.inst with
  | some h => (s, .ret h)
  | none =>
    match s.initializingPromise with
    | some p => (s, .awaitWaiter p)
    | none =>
      let p := s.createWorkerCalls
      ({ s with initializingPromise := some p,
                createWorkerCalls := s.createWorkerCalls + 1 },
        .awaitCreator p)

/-- Continuation of the creating caller when `initializingPromise` settles:
on fulfilment `instance = await initializingPromise` and the instance is
returned; on rejection the `catch` clears `initializingPromise` and
rethrows. The result type is `Option Nat` because a `getInstance` caller
returns the current `instance` variable, which JavaScript lets be `null`. -/
def creatorResume (s : WorkerState) (res : Except String Nat) :
    WorkerState × Except String (Option Nat) :=
  match res with
  | .ok h => ({ s with inst := some h }, .ok (some h))
  | .error e => ({ s with initializingPromise := none }, .error e)

/-- Continuation of a non-creating caller: `await initializingPromise`
rethrows a rejection; on fulfilment the caller returns the `instance`
variable as it stands when the caller resumes. -/
def waiterResume (s : WorkerState) (res : Except String Nat) :
    WorkerState × Except String (Option Nat) :=
  match res with
  | .ok _ => (s, .ok s.inst)
  | .error e => (s, .error e)

/-- Resume one suspended `getInstance` caller according to how its
synchronous prefix left it; a caller that returned immediately is
unaffected by the settlement. -/
def resumeAction (s : WorkerState) (a : EntryAction) (res : Except String Nat) :
    WorkerState × Except String (Option Nat) :=
  match a with
  | .ret h => (s, .ok (some h))
  | .awaitCreator _ => creatorResume s res
  | .awaitWaiter _ => waiterResume s res

/-- Two concurrent `getInstance()` calls from the uninitialized state, both
entering before the initialization settles (the claim's notion of
concurrent), under the event-loop semantics: the two synchronous prefixes
run atomically one after the other (the callers are symmetric, so the entry
order is taken as caller 1 then caller 2 without loss of generality), the
single pending promise settles with `res` — the `createWorker` outcome —
and the suspended continuations resume in registration (FIFO microtask)
order. Returns the final state and both callers' outcomes. -/
def runTwoGetInstance (res : Except String Nat) :
    WorkerState × Except String (Option Nat) × Except String (Option Nat) :=
  let e1 := getInstanceEntry initialWorkerState
  let e2 := getInstanceEntry e1.1
  let r1 := resumeAction e2.1 e1.2 res
  let r2 := resumeAction r1.1 e2.2 res
  (r2.1, r1.2, r2.2)

/-- `TesseractWorkerSingleton.terminateInstance` from `src/index.mjs`: if an
instance exists, terminate it and null out both `instance` and
`initializingPromise`; otherwise do nothing. The boolean records whether
`instance.terminate()` was invoked on the engine. -/
def terminateInstance (s : WorkerState) : WorkerState × Bool :=
  match s.inst with
  | some _ => ({ s with inst := none, initializingPromise := none }, true)
  | none => (s, false)

/-! ## Shared helper lemmas -/

/-- A buffer of length at most 4 never satisfies `isPdf`. -/
theorem isPdf_eq_false_of_le (c : Bytes) (h : c.length ≤ 4) : isPdf c = false := by
  have hd : decide (4 < c.length) = false := by
    simp only [decide_eq_false_iff_not]
    omega
  simp [isPdf, hd]

/-- A buffer of length at most 3 never satisfies `isJpeg`. -/
theorem isJpeg_eq_false_of_le (c : Bytes) (h : c.length ≤ 3) : isJpeg c = false := by
  have hd : decide (3 < c.length) = false := by
    simp only [decide_eq_false_iff_not]
    omega
  simp [isJpeg, hd]

/-- A buffer of length at most 8 never satisfies `isPng`. -/
theorem isPng_eq_false_of_le (c : Bytes) (h : c.length ≤ 8) : isPng c = false := by
  have hd : decide (8 < c.length) = false := by
    simp only [decide_eq_false_iff_not]
    omega
  simp [isPng, hd]

/-! ## C3 — PDF classification and buffer length -/

/-- C3 counterexample: the buffer of exactly the 4 ASCII bytes `%PDF` does
satisfy the claim's premise (its first 4 bytes are `%PDF`) yet `isPdf` is
false for it — the source requires `buffer.length > 4` strictly — and
`determineMimeType` classifies it as `application/octet-stream`, not as
PDF. -/
theorem c3_counterexample_exact_four_bytes :
    ([0x25, 0x50, 0x44, 0x46] : Bytes).take 4 = [0x25, 0x50, 0x44, 0x46]
    ∧ isPdf [0x25, 0x50, 0x44, 0x46] = false
    ∧ determineMimeType [0x25, 0x50, 0x44, 0x46] = "application/octet-stream"
    ∧ determineMimeType [0x25, 0x50, 0x44, 0x46] ≠ "application/pdf" := by
  refine ⟨rfl, by decide, by decide, by decide⟩

/-- C3 (amended): for every byte buffer of length strictly greater than 4
whose first 4 bytes are the ASCII characters `%PDF`, the sniffer classifies
it as PDF regardless of trailing content; a buffer of exactly 4 bytes
`%PDF` instead classifies as UNKNOWN. -/
theorem c3_pdf_signature_classifies_pdf (b : Bytes) (h4 : 4 < b.length)
    (hsig : b.take 4 = [0x25, 0x50, 0x44, 0x46]) :
    isPdf b = true ∧ determineMimeType b = "application/pdf" := by
  have hp : isPdf b = true := by
    simp [isPdf, h4, hsig]
  exact ⟨hp, by simp [determineMimeType, hp]⟩

/-- C3 witness: a 5-byte buffer starting with `%PDF` is classified PDF. -/
theorem c3_pdf_signature_classifies_pdf_witness :
    isPdf [0x25, 0x50, 0x44, 0x46, 0x2d] = true
    ∧ determineMimeType [0x25, 0x50, 0x44, 0x46, 0x2d] = "application/pdf" :=
  c3_pdf_signature_classifies_pdf [0x25, 0x50, 0x44, 0x46, 0x2d] (by decide) (by decide)

/-! ## C4 — short buffers classify as UNKNOWN and never match -/

/-- C4: every non-empty buffer shorter than 4 bytes classifies as UNKNOWN
(`application/octet-stream`); moreover a buffer shorter than a signature's
length (4 bytes PDF, 3 bytes JPEG, 8 bytes PNG) never matches that format.
All the involved functions are total Lean functions, so no input can make
the sniffer fail. -/
theorem c4_short_buffer_unknown (b : Bytes) (hne : b ≠ []) (hlt : b.length < 4) :
    determineMimeType b = "application/octet-stream"
    ∧ (∀ c : Bytes, c.length < 4 → isPdf c = false)
    ∧ (∀ c : Bytes, c.length < 3 → isJpeg c = false)
    ∧ (∀ c : Bytes, c.length < 8 → isPng c = false) := by
  refine ⟨?_, ?_, ?_, ?_⟩
  · have h1 := isPdf_eq_false_of_le b (by omega)
    have h2 := isJpeg_eq_false_of_le b (by omega)
    have h3 := isPng_eq_false_of_le b (by omega)
    simp [determineMimeType, h1, h2, h3]
  · exact fun c hc => isPdf_eq_false_of_le c (by omega)
  · exact fun c hc => isJpeg_eq_false_of_le c (by omega)
  · exact fun c hc => isPng_eq_false_of_le c (by omega)

/-- C4 witness: the 1-byte buffer `[0]` classifies as UNKNOWN. -/
theorem c4_short_buffer_unknown_witness :
    determineMimeType [0] = "application/octet-stream"
    ∧ (∀ c : Bytes, c.length < 4 → isPdf c = false)
    ∧ (∀ c : Bytes, c.length < 3 → isJpeg c = false)
    ∧ (∀ c : Bytes, c.length < 8 → isPng c = false) :=
  c4_short_buffer_unknown [0] (by decide) (by decide)

/-! ## C5 — empty batch short-circuits with no engine interaction -/

/-- C5: for an absent or empty `files` list the handler returns immediately
with status 200, the message `No files have been passed to processing.`,
and an empty results sequence, and the engine/collaborator trace is empty —
no recognition-engine interaction of any kind happens. -/
theorem c5_empty_batch_no_engine (env : OcrEnv) :
    handler env (some { files := none }) = (noFilesResponse, [])
    ∧ handler env (some { files := some [] }) = (noFilesResponse, [])
    ∧ noFilesResponse.statusCode = 200
    ∧ noFilesResponse.message = "No files have been passed to processing."
    ∧ noFilesResponse.body = [] :=
  ⟨rfl, rfl, rfl, rfl, rfl⟩

/-! ## C2 — batch shape, order, and per-file failure isolation -/

/-- A placeholder result used only as the out-of-range default of
`List.getD`; its `success := true` makes the `success = false` statements
below meaningful only for in-range indices. -/
def dummyResult : FileResult :=
  { filename := "", success := true, extractedText := none, error := none }

/-- A file whose `fileBuffer` is absent yields the caught `TypeError`
failure result: `success = false` with the error message, no text. -/
theorem processFile_missing_buffer (env : OcrEnv) (fi : FileInput)
    (h : fi.fileBuffer = none) :
    processFile env fi = failureResult fi bufferTypeErrorMsg := by
  simp [processFile, processFileTr, h]

/-- The handler's results array is exactly the input list mapped through
`processFile`, for any non-empty input list. -/
theorem handler_body_eq_map (env : OcrEnv) (fs : List FileInput) (hne : fs ≠ []) :
    (handler env (some { files := some fs })).1.body = fs.map (processFile env) := by
  match fs with
  | [] => exact absurd rfl hne
  | f :: t =>
    simp [handler, processFile, Function.comp]

/-- C2: for every non-empty batch of inputs, the handler returns status 200
with exactly one result per input in input order (the results array is the
input list mapped through `processFile`, so it has the same length and the
`i`-th result comes from the `i`-th input); any input with a missing buffer
produces `success = false` at its own position without dropping, reordering
or altering any other position and without failing the batch call. -/
theorem c2_batch_order_and_isolation (env : OcrEnv) (fs : List FileInput)
    (hne : fs ≠ []) :
    (handler env (some { files := some fs })).1.statusCode = 200
    ∧ (handler env (some { files := some fs })).1.body = fs.map (processFile env)
    ∧ (handler env (some { files := some fs })).1.body.length = fs.length
    ∧ (∀ k, k < fs.length →
        (handler env (some { files := some fs })).1.body.getD k dummyResult
          = processFile env (fs.getD k { fileBuffer := none, filename := none, contentType := none }))
    ∧ (∀ k, k < fs.length →
        (fs.getD k { fileBuffer := none, filename := none, contentType := none }).fileBuffer = none →
        ((handler env (some { files := some fs })).1.body.getD k dummyResult).success = false) := by
  have hbody := handler_body_eq_map env fs hne
  have hstatus : (handler env (some { files := some fs })).1.statusCode = 200 := by
    match fs with
    | [] => exact absurd rfl hne
    | f :: t => simp [handler]
  have hget : ∀ k, k < fs.length →
      (handler env (some { files := some fs })).1.body.getD k dummyResult
        = processFile env (fs.getD k { fileBuffer := none, filename := none, contentType := none }) := by
    intro k hk
    rw [hbody]
    rw [List.getD_eq_getElem _ _ (by simpa using hk), List.getD_eq_getElem _ _ hk]
    simp
  refine ⟨hstatus, hbody, by rw [hbody]; simp, hget, ?_⟩
  intro k hk hmiss
  rw [hget k hk, processFile_missing_buffer env _ hmiss]
  rfl

/-- A fully succeeding environment: worker acquisition, preprocessing,
recognition and PDF parsing all succeed and return text. -/
def envOk : OcrEnv :=
  { getWorker := .ok ()
    preprocess := fun b => .ok b
    recognize := fun _ => .ok (some "recognized text")
    parsePdfText := fun _ => .ok (some "embedded text") }

/-- A five-byte `%PDF-` buffer, a minimal valid PDF prelude. -/
def pdfBytes : Bytes := [0x25, 0x50, 0x44, 0x46, 0x2d]

/-- A two-file batch whose first file lacks its buffer and whose second is
a well-formed PDF. -/
def mixedBatch : List FileInput :=
  [{ fileBuffer := none, filename := some "broken", contentType := none },
   { fileBuffer := some pdfBytes, filename := some "doc.pdf", contentType := none }]

/-- C2 witness: on the concrete two-file batch, the failing file yields
`success = false` at position 0 while position 1 is the second file's own
result and the batch call itself reports 200. -/
theorem c2_batch_order_and_isolation_witness :
    (handler envOk (some { files := some mixedBatch })).1.statusCode = 200
    ∧ ((handler envOk (some { files := some mixedBatch })).1.body.getD 0 dummyResult).success = false
    ∧ (handler envOk (some { files := some mixedBatch })).1.body.getD 1 dummyResult
        = processFile envOk (mixedBatch.getD 1 { fileBuffer := none, filename := none, contentType := none }) :=
  ⟨(c2_batch_order_and_isolation envOk mixedBatch (by decide)).1,
   (c2_batch_order_and_isolation envOk mixedBatch (by decide)).2.2.2.2 0 (by decide) (by decide),
   (c2_batch_order_and_isolation envOk mixedBatch (by decide)).2.2.2.1 1 (by decide)⟩

/-! ## C1 — at most one initialization under concurrent acquisition -/

/-- C1: for two concurrent `getInstance` calls from the uninitialized
state — both entering before the single pending initialization settles —
exactly one `createWorker` call is started; on fulfilment both callers
receive the same worker handle, and on rejection both callers receive the
same error, the in-progress marker is cleared, and a later `getInstance`
from the resulting state starts a fresh initialization (the `createWorker`
count moves to 2). -/
theorem c1_single_initialization_shared_outcome (res : Except String Nat) :
    (runTwoGetInstance res).1.createWorkerCalls = 1
    ∧ (runTwoGetInstance res).2.1 = (runTwoGetInstance res).2.2
    ∧ (∀ h, res = .ok h →
        (runTwoGetInstance res).2.1 = .ok (some h)
        ∧ (runTwoGetInstance res).1.inst = some h)
    ∧ (∀ e, res = .error e →
        (runTwoGetInstance res).2.1 = .error e
        ∧ (runTwoGetInstance res).1.inst = none
        ∧ (runTwoGetInstance res).1.initializingPromise = none
        ∧ (getInstanceEntry (runTwoGetInstance res).1).2
            = EntryAction.awaitCreator (runTwoGetInstance res).1.createWorkerCalls
        ∧ (getInstanceEntry (runTwoGetInstance res).1).1.createWorkerCalls = 2) := by
  cases res with
  | ok h =>
    refine ⟨rfl, rfl, ?_, ?_⟩
    · intro h' hh
      cases hh
      exact ⟨rfl, rfl⟩
    · intro e he
      cases he
  | error e =>
    refine ⟨rfl, rfl, ?_, ?_⟩
    · intro h' hh
      cases hh
    · intro e' he
      cases he
      exact ⟨rfl, rfl, rfl, rfl, rfl⟩

/-- C1 witness: with a successful `createWorker` yielding handle 5 both
callers get handle 5 off a single initialization; with a failing
`createWorker` both callers get the same error and the marker is cleared
for a fresh retry. -/
theorem c1_single_initialization_shared_outcome_witness :
    (runTwoGetInstance (.ok 5)).1.createWorkerCalls = 1
    ∧ (runTwoGetInstance (.ok 5)).2.1 = .ok (some 5)
    ∧ (runTwoGetInstance (.ok 5)).2.2 = .ok (some 5)
    ∧ (runTwoGetInstance (.error "init failed")).2.1 = .error "init failed"
    ∧ (runTwoGetInstance (.error "init failed")).2.2 = .error "init failed"
    ∧ (runTwoGetInstance (.error "init failed")).1.initializingPromise = none
    ∧ (getInstanceEntry (runTwoGetInstance (.error "init failed")).1).1.createWorkerCalls = 2 := by
  refine ⟨(c1_single_initialization_shared_outcome (.ok 5)).1,
    ((c1_single_initialization_shared_outcome (.ok 5)).2.2.1 5 rfl).1,
    ?_,
    ((c1_single_initialization_shared_outcome (.error "init failed")).2.2.2 "init failed" rfl).1,
    ?_,
    ((c1_single_initialization_shared_outcome (.error "init failed")).2.2.2 "init failed" rfl).2.2.1,
    ((c1_single_initialization_shared_outcome (.error "init failed")).2.2.2 "init failed" rfl).2.2.2.2⟩
  · rw [← (c1_single_initialization_shared_outcome (.ok 5)).2.1]
    exact ((c1_single_initialization_shared_outcome (.ok 5)).2.2.1 5 rfl).1
  · rw [← (c1_single_initialization_shared_outcome (.error "init failed")).2.1]
    exact ((c1_single_initialization_shared_outcome (.error "init failed")).2.2.2 "init failed" rfl).1

/-! ## C6 — content sniffing overrides an untrustworthy hint -/

/-- Whenever the buffer sniffs as an image, `processFileTr` takes the image
branch: its trace is exactly the image-pipeline trace. -/
theorem processFileTr_image_branch (env : OcrEnv) (fi : FileInput) (b : Bytes)
    (hb : fi.fileBuffer = some b) (himg : isImageFile b = true) :
    (processFileTr env fi).2 = (performOcrOnImage env b).2 := by
  simp only [processFileTr, hb, himg, Bool.or_true, if_true]
  rcases hoc : performOcrOnImage env b with ⟨res, tr⟩
  cases res <;> simp

/-- The image pipeline always acquires the worker first. -/
theorem getWorkerCall_mem_image_trace (env : OcrEnv) (b : Bytes) :
    EngineEvent.getWorkerCall ∈ (performOcrOnImage env b).2 := by
  cases hw : env.getWorker with
  | error e => simp [performOcrOnImage, hw]
  | ok u =>
    cases hp : env.preprocess b with
    | error e => simp [performOcrOnImage, hw, hp]
    | ok p =>
      cases hr : env.recognize p with
      | error e => simp [performOcrOnImage, hw, hp, hr]
      | ok t => simp [performOcrOnImage, hw, hp, hr]

/-- After a successful worker acquisition the image pipeline preprocesses
the raw bytes. -/
theorem preprocessCall_mem_image_trace (env : OcrEnv) (b : Bytes)
    (hw : env.getWorker = .ok ()) :
    EngineEvent.preprocessCall b ∈ (performOcrOnImage env b).2 := by
  cases hp : env.preprocess b with
  | error e => simp [performOcrOnImage, hw, hp]
  | ok p =>
    cases hr : env.recognize p with
    | error e => simp [performOcrOnImage, hw, hp, hr]
    | ok t => simp [performOcrOnImage, hw, hp, hr]

/-- After successful acquisition and preprocessing the image pipeline
recognizes the preprocessed buffer. -/
theorem recognizeCall_mem_image_trace (env : OcrEnv) (b p : Bytes)
    (hw : env.getWorker = .ok ()) (hp : env.preprocess b = .ok p) :
    EngineEvent.recognizeCall p ∈ (performOcrOnImage env b).2 := by
  cases hr : env.recognize p with
  | error e => simp [performOcrOnImage, hw, hp, hr]
  | ok t => simp [performOcrOnImage, hw, hp, hr]

/-- C6: a file whose bytes sniff as JPEG or PNG but whose `contentType`
hint indicates neither image nor pdf (`strIncludes` fails for both) is
still routed to the image-recognition path: the per-file trace is the image
pipeline's trace, which acquires the engine handle, preprocesses the raw
bytes once acquisition succeeds, and recognizes the preprocessed buffer via
the engine handle once preprocessing succeeds. -/
theorem c6_sniffing_overrides_hint (env : OcrEnv) (fi : FileInput) (b : Bytes)
    (ct : String) (hb : fi.fileBuffer = some b) (himg : isImageFile b = true)
    (hct : fi.contentType = some ct)
    (hn1 : strIncludes ct "image" = false) (hn2 : strIncludes ct "pdf" = false) :
    (processFileTr env fi).2 = (performOcrOnImage env b).2
    ∧ EngineEvent.getWorkerCall ∈ (processFileTr env fi).2
    ∧ (env.getWorker = .ok () →
        EngineEvent.preprocessCall b ∈ (processFileTr env fi).2)
    ∧ (∀ p, env.getWorker = .ok () → env.preprocess b = .ok p →
        EngineEvent.recognizeCall p ∈ (processFileTr env fi).2) := by
  have htr := processFileTr_image_branch env fi b hb himg
  refine ⟨htr, ?_, ?_, ?_⟩
  · rw [htr]
    exact getWorkerCall_mem_image_trace env b
  · intro hw
    rw [htr]
    exact preprocessCall_mem_image_trace env b hw
  · intro p hw hp
    rw [htr]
    exact recognizeCall_mem_image_trace env b p hw hp

/-- A four-byte JPEG: the three signature bytes and one content byte. -/
def jpegBytes : Bytes := [0xff, 0xd8, 0xff, 0x00]

/-- The C6 witness input: JPEG bytes with the intentionally wrong hint
`text/plain`. -/
def wrongHintInput : FileInput :=
  { fileBuffer := some jpegBytes, filename := some "scan.jpg",
    contentType := some "text/plain" }

/-- C6 witness: the concrete JPEG-with-`text/plain`-hint file goes through
the image pipeline — its trace is the image trace and the engine handle is
acquired, the raw bytes preprocessed, and the preprocessed buffer
recognized. -/
theorem c6_sniffing_overrides_hint_witness :
    (processFileTr envOk wrongHintInput).2 = (performOcrOnImage envOk jpegBytes).2
    ∧ EngineEvent.getWorkerCall ∈ (processFileTr envOk wrongHintInput).2
    ∧ EngineEvent.preprocessCall jpegBytes ∈ (processFileTr envOk wrongHintInput).2
    ∧ EngineEvent.recognizeCall jpegBytes ∈ (processFileTr envOk wrongHintInput).2 :=
  ⟨(c6_sniffing_overrides_hint envOk wrongHintInput jpegBytes "text/plain"
      rfl (by decide) rfl (by decide) (by decide)).1,
   (c6_sniffing_overrides_hint envOk wrongHintInput jpegBytes "text/plain"
      rfl (by decide) rfl (by decide) (by decide)).2.1,
   (c6_sniffing_overrides_hint envOk wrongHintInput jpegBytes "text/plain"
      rfl (by decide) rfl (by decide) (by decide)).2.2.1 rfl,
   (c6_sniffing_overrides_hint envOk wrongHintInput jpegBytes "text/plain"
      rfl (by decide) rfl (by decide) (by decide)).2.2.2 jpegBytes rfl rfl⟩

/-! ## C7 — engine teardown after every non-empty batch -/

/-- C7: after the handler completes any non-empty batch its very last
engine interaction is the `terminateInstance` release. For any singleton
state the handler can be in after a batch's join (if no handle exists the
in-progress marker was already cleared, since a successful initialization
sets the handle and a failed one clears the marker), `terminateInstance`
leaves neither a handle nor an in-progress marker; when no handle exists it
is a no-op that does not touch the engine, and running it again is also a
no-op — it is idempotent. From the cleared state the next `getInstance`
takes the creator path and starts a fresh initialization. -/
theorem c7_release_and_fresh_reinitialization (env : OcrEnv) (fs : List FileInput)
    (s : WorkerState) (hne : fs ≠ [])
    (hreach : s.inst = none → s.initializingPromise = none) :
    ((handler env (some { files := some fs })).2).getLast? = some EngineEvent.terminateCall
    ∧ (terminateInstance s).1.inst = none
    ∧ (terminateInstance s).1.initializingPromise = none
    ∧ (s.inst = none → terminateInstance s = (s, false))
    ∧ terminateInstance (terminateInstance s).1 = ((terminateInstance s).1, false)
    ∧ (getInstanceEntry (terminateInstance s).1).2
        = EntryAction.awaitCreator (terminateInstance s).1.createWorkerCalls
    ∧ (getInstanceEntry (terminateInstance s).1).1.createWorkerCalls
        = s.createWorkerCalls + 1 := by
  have hterm : (terminateInstance s).1.inst = none
      ∧ (terminateInstance s).1.initializingPromise = none := by
    cases hs : s.inst with
    | some h => simp [terminateInstance, hs]
    | none => simp [terminateInstance, hs, hreach hs]
  have hlast :
      ((handler env (some { files := some fs })).2).getLast?
        = some EngineEvent.terminateCall := by
    match fs with
    | [] => exact absurd rfl hne
    | f :: t => simp [handler]
  refine ⟨hlast, hterm.1, hterm.2, ?_, ?_, ?_, ?_⟩
  · intro hs
    simp [terminateInstance, hs]
  · cases hs : s.inst <;> simp [terminateInstance, hs]
  · simp [getInstanceEntry, hterm.1, hterm.2]
  · cases hs : s.inst with
    | some h => simp [terminateInstance, hs, getInstanceEntry]
    | none => simp [terminateInstance, hs, getInstanceEntry, hreach hs]

/-- A singleton state holding a ready worker handle, as left by a batch
whose initialization succeeded. -/
def readyWorkerState : WorkerState :=
  { inst := some 7, initializingPromise := some 0, createWorkerCalls := 1 }

/-- A one-file batch used as a concrete non-empty input. -/
def singleBatch : List FileInput :=
  [{ fileBuffer := some pdfBytes, filename := some "doc.pdf", contentType := none }]

/-- C7 witness: the concrete one-file batch ends with the release call, and
releasing the concrete ready state clears handle and marker, after which a
fresh acquisition starts a second initialization. -/
theorem c7_release_and_fresh_reinitialization_witness :
    ((handler envOk (some { files := some singleBatch })).2).getLast?
      = some EngineEvent.terminateCall
    ∧ (terminateInstance readyWorkerState).1.inst = none
    ∧ (terminateInstance readyWorkerState).1.initializingPromise = none
    ∧ (getInstanceEntry (terminateInstance readyWorkerState).1).1.createWorkerCalls = 2 :=
  ⟨(c7_release_and_fresh_reinitialization envOk singleBatch readyWorkerState
      (by decide) (by intro h; cases h)).1,
   (c7_release_and_fresh_reinitialization envOk singleBatch readyWorkerState
      (by decide) (by intro h; cases h)).2.1,
   (c7_release_and_fresh_reinitialization envOk singleBatch readyWorkerState
      (by decide) (by intro h; cases h)).2.2.1,
   (c7_release_and_fresh_reinitialization envOk singleBatch readyWorkerState
      (by decide) (by intro h; cases h)).2.2.2.2.2.2⟩

/-! ## C9 — orchestrator-level failure yields a well-formed 500 -/

/-- C9: the one orchestrator-level failure reachable in the embedding —
invoking the handler with a `null` event, so that `const { files } = event`
throws outside the per-file isolation boundary — is caught by the outer
`catch`, which releases the engine handle (the trace ends with the release)
and returns a well-formed response with status 500, the failure message,
and an empty results array. The handler is a total function and every
invocation, whatever the event, yields a well-formed response whose status
is 200 or 500 and whose content type is `application/json` — it never
throws to the caller. -/
theorem c9_orchestrator_failure_well_formed (env : OcrEnv) :
    (handler env none).1.statusCode = 500
    ∧ (handler env none).1.message = destructureNullMsg
    ∧ (handler env none).1.body = []
    ∧ ((handler env none).2).getLast? = some EngineEvent.terminateCall
    ∧ (∀ event, (handler env event).1.statusCode = 200
        ∨ (handler env event).1.statusCode = 500)
    ∧ (∀ event, (handler env event).1.contentTypeHeader = "application/json") := by
  refine ⟨rfl, rfl, rfl, rfl, ?_, ?_⟩
  · intro event
    match event with
    | none => exact Or.inr rfl
    | some { files := none } => exact Or.inl rfl
    | some { files := some [] } => exact Or.inl rfl
    | some { files := some (f :: t) } => exact Or.inl rfl
  · intro event
    match event with
    | none => rfl
    | some { files := none } => rfl
    | some { files := some [] } => rfl
    | some { files := some (f :: t) } => rfl

/-! ## C8 — success/extractedText/error exclusivity -/

/-- If the image pipeline fulfils with `t`, then `t` came from the
recognition collaborator on some preprocessed buffer. -/
theorem performOcrOnImage_ok_from_recognize (env : OcrEnv) (b : Bytes)
    (t : Option String) (h : (performOcrOnImage env b).1 = .ok t) :
    ∃ p, env.recognize p = .ok t := by
  cases hw : env.getWorker with
  | error e => simp [performOcrOnImage, hw] at h
  | ok u =>
    cases hp : env.preprocess b with
    | error e => simp [performOcrOnImage, hw, hp] at h
    | ok p =>
      cases hr : env.recognize p with
      | error e => simp [performOcrOnImage, hw, hp, hr] at h
      | ok t' =>
        simp [performOcrOnImage, hw, hp, hr] at h
        exact ⟨p, by rw [hr, h]⟩

/-- The PDF-extraction collaborator resolving with a data object that has
no `text` field, so `data?.text` is `undefined`. -/
def envPdfNoText : OcrEnv :=
  { getWorker := .ok ()
    preprocess := fun b => .ok b
    recognize := fun _ => .ok (some "recognized text")
    parsePdfText := fun _ => .ok none }

/-- A PDF file input with a filename and no content-type hint. -/
def pdfDocInput : FileInput :=
  { fileBuffer := some pdfBytes, filename := some "scan.pdf", contentType := none }

/-- C8 counterexample: when the PDF extraction yields no text field, the
result has `success = true` with a null `extractedText`, so "extractedText
present and non-null iff success" fails on this input. -/
theorem c8_counterexample_pdf_without_text_field :
    (processFile envPdfNoText pdfDocInput).success = true
    ∧ (processFile envPdfNoText pdfDocInput).extractedText = none
    ∧ ¬(((processFile envPdfNoText pdfDocInput).extractedText ≠ none)
        ↔ (processFile envPdfNoText pdfDocInput).success = true) := by
  refine ⟨by decide, by decide, by decide⟩

/-- C8 (amended): provided the recognition and PDF-extraction collaborators
never fulfil with a missing text field (the text may still be empty), every
produced result has `extractedText` non-null iff `success` is true, and
`error` non-null iff `success` is false — exactly one of the two is
meaningful. Without that proviso the `extractedText` direction fails, as
the counterexample shows; the `error` direction holds unconditionally. -/
theorem c8_result_exclusivity (env : OcrEnv)
    (hrec : ∀ b t, env.recognize b = .ok t → t ≠ none)
    (hpdf : ∀ b t, env.parsePdfText b = .ok t → t ≠ none)
    (fi : FileInput) :
    ((processFile env fi).extractedText ≠ none ↔ (processFile env fi).success = true)
    ∧ ((processFile env fi).error ≠ none ↔ (processFile env fi).success = false) := by
  unfold processFile processFileTr
  cases hb : fi.fileBuffer with
  | none => simp [failureResult]
  | some b =>
    simp only
    split
    · rcases hoc : performOcrOnImage env b with ⟨res, tr⟩
      cases res with
      | ok t =>
        have ht : t ≠ none := by
          rcases performOcrOnImage_ok_from_recognize env b t (by rw [hoc]) with ⟨p, hp⟩
          exact hrec p t hp
        simp [ht]
      | error e => simp [failureResult]
    · split
      · rcases hoc : performOcrOnPdf env b with ⟨res, tr⟩
        cases res with
        | ok t =>
          have ht : t ≠ none := by
            have : env.parsePdfText b = .ok t := by
              have := congrArg Prod.fst hoc
              simpa [performOcrOnPdf] using this
            exact hpdf b t this
          simp [ht]
        | error e => simp [failureResult]
      · simp [failureResult]

/-- C8 witness: with collaborators that always produce text, a concrete PDF
input yields a result with non-null `extractedText`, `success = true` and a
null `error`, and the exclusivity equivalences hold at that input. -/
theorem c8_result_exclusivity_witness :
    (((processFile envOk pdfDocInput).extractedText ≠ none
        ↔ (processFile envOk pdfDocInput).success = true)
      ∧ ((processFile envOk pdfDocInput).error ≠ none
        ↔ (processFile envOk pdfDocInput).success = false)) :=
  c8_result_exclusivity envOk
    (by intro b t h; simp only [envOk] at h; injection h with h; subst h; simp)
    (by intro b t h; simp only [envOk] at h; injection h with h; subst h; simp)
    pdfDocInput

/-! ## C10 — the filename placeholder differs between success and failure -/

/-- The `filename` of every produced result is the input's filename under
JavaScript `||` defaulting, with default `document` on the success path and
`unknown` on the failure path. -/
theorem processFile_filename_default (env : OcrEnv) (fi : FileInput) :
    (processFile env fi).filename =
      (if (processFile env fi).success = true then jsStrOr fi.filename "document"
       else jsStrOr fi.filename "unknown") := by
  unfold processFile processFileTr
  cases hb : fi.fileBuffer with
  | none => simp [failureResult]
  | some b =>
    simp only
    split
    · rcases hoc : performOcrOnImage env b with ⟨res, tr⟩
      cases res with
      | ok t => simp
      | error e => simp [failureResult]
    · split
      · rcases hoc : performOcrOnPdf env b with ⟨res, tr⟩
        cases res with
        | ok t => simp
        | error e => simp [failureResult]
      · simp [failureResult]

/-- An input with a buffer but no filename, which processes successfully
under `envOk`. -/
def noNameSuccessInput : FileInput :=
  { fileBuffer := some pdfBytes, filename := none, contentType := none }

/-- An input with neither buffer nor filename, which fails. -/
def noNameFailureInput : FileInput :=
  { fileBuffer := none, filename := none, contentType := none }

/-- C10 counterexample: two absent-filename inputs, one succeeding and one
failing, receive two different placeholder strings — `document` and
`unknown` — so there is no single fixed placeholder independent of the
outcome. -/
theorem c10_counterexample_two_placeholders :
    (processFile envOk noNameSuccessInput).success = true
    ∧ (processFile envOk noNameSuccessInput).filename = "document"
    ∧ (processFile envOk noNameFailureInput).success = false
    ∧ (processFile envOk noNameFailureInput).filename = "unknown"
    ∧ (processFile envOk noNameSuccessInput).filename
        ≠ (processFile envOk noNameFailureInput).filename := by
  refine ⟨by decide, by decide, by decide, by decide, by decide⟩

/-- C10 (amended): when the input's filename is absent (or the empty
string, which JavaScript `||` also replaces), the result's filename is the
placeholder `document` if processing succeeded and the placeholder
`unknown` if it failed; a supplied non-empty filename is echoed unchanged
into the result in either case. -/
theorem c10_filename_defaults (env : OcrEnv) (fi : FileInput) :
    ((fi.filename = none ∨ fi.filename = some "") →
      ((processFile env fi).success = true → (processFile env fi).filename = "document")
      ∧ ((processFile env fi).success = false → (processFile env fi).filename = "unknown"))
    ∧ (∀ s, fi.filename = some s → s ≠ "" → (processFile env fi).filename = s) := by
  have hf := processFile_filename_default env fi
  constructor
  · intro habs
    constructor
    · intro hs
      rw [hf, if_pos hs]
      rcases habs with h | h <;> simp [jsStrOr, h]
    · intro hs
      rw [hf, if_neg (by simp [hs])]
      rcases habs with h | h <;> simp [jsStrOr, h]
  · intro s hsome hne
    rw [hf]
    split <;> simp [jsStrOr, hsome, hne]

/-- A file input carrying an explicit non-empty filename. -/
def namedPdfInput : FileInput :=
  { fileBuffer := some pdfBytes, filename := some "inv.pdf", contentType := none }

/-- C10 witness: the absent-filename success case gets `document`, the
absent-filename failure case gets `unknown`, and a supplied filename is
echoed unchanged. -/
theorem c10_filename_defaults_witness :
    (processFile envOk noNameSuccessInput).filename = "document"
    ∧ (processFile envOk noNameFailureInput).filename = "unknown"
    ∧ (processFile envOk namedPdfInput).filename = "inv.pdf" :=
  ⟨((c10_filename_defaults envOk noNameSuccessInput).1 (Or.inl rfl)).1 (by decide),
   ((c10_filename_defaults envOk noNameFailureInput).1 (Or.inl rfl)).2 (by decide),
   (c10_filename_defaults envOk namedPdfInput).2 "inv.pdf" rfl (by decide)⟩

end LambdaOcr
